import Mathlib

/-!
Formal model of the PDF report generator (src/app.py).

The pure parts of the program — the flow (story) construction in
PDFGenerator.generate, the inline image-resizing logic, the footer
drawing callbacks, and the logo-fetch fallback structure — are embedded
directly from the source.  The pagination engine itself (reportlab
SimpleDocTemplate.multiBuild) is an external library; where the claims
depend on it (page assignment, TOC-entry registration, layout failure)
it is modelled from the specification, sections 4.5 and 4.4: primitives
flow onto pages of fixed capacity, an explicit page break always starts
a new page, a heading-styled paragraph registers one table-of-contents
entry at the page on which it is placed, and a primitive taller than a
full page is a fatal layout error.  Paragraph heights depend on text
wrapping and are therefore an abstract parameter of the model.

All lengths are in points, as exact rationals: inch = 72, and the
reportlab A4 page size is (210mm, 297mm) with mm = 72/25.4, hence
A4 = (75600/127, 106920/127).
-/

/-- reportlab.lib.units: one inch is 72 points. -/
def inch : ℚ := 72

/-- reportlab A4 page width: 210 mm = 210 * 72 / 25.4 points = 75600/127. -/
def a4Width : ℚ := 75600 / 127

/-- reportlab A4 page height: 297 mm = 297 * 72 / 25.4 points = 106920/127. -/
def a4Height : ℚ := 106920 / 127

/-- The metadata dict assembled by the Generate button handler:
keys title, subtitle, name, roll_number. -/
structure ReportMetadata where
  title : String
  subtitle : String
  name : String
  roll_number : String
deriving DecidableEq

/-- Outcome of the HTTP GET in fetch_logo: either a response with a
status code, or a raised network exception. -/
inductive HttpResult
  | response (status : Nat)
  | netError
deriving DecidableEq

/-- PDFGenerator.fetch_logo: returns a temp-file path (modelled as
some ()) when the request succeeds with status 200, and None when the
status differs or the request raises. -/
def fetch_logo : HttpResult → Option Unit
  | HttpResult.response s => if s = 200 then some () else none
  | HttpResult.netError => none

/-- An uploaded image file: decoded native pixel dimensions, which
reportlab Image uses as drawWidth/drawHeight (one pixel = one point). -/
structure ImageFile where
  width : ℚ
  height : ℚ
deriving DecidableEq

/-- One entry of st.session_state.content_list: a dict with a type tag
heading / text / image; image items carry a file value that can be
falsy (modelled as none). -/
inductive ContentItem
  | heading (text : String)
  | text (text : String)
  | image (file : Option ImageFile)
deriving DecidableEq

/-- A layout primitive appended to the story list in
PDFGenerator.generate: a styled paragraph, a vertical spacer, an image
with resolved draw dimensions, the TableOfContents placeholder, or an
explicit PageBreak. -/
inductive Prim
  | para (text : String) (style : String)
  | spacer (height : ℚ)
  | image (drawWidth : ℚ) (drawHeight : ℚ)
  | tocPlaceholder
  | pageBreak
deriving DecidableEq

/-- generate, resize logic: avail_width = A4[0] - 144. -/
def avail_width : ℚ := a4Width - 144

/-- The inline resize logic of generate: if the native width exceeds
avail_width, the draw width becomes avail_width and the draw height is
scaled by ratio = avail_width / native width; otherwise the native
dimensions are kept unchanged. -/
def fit_image (w h : ℚ) : ℚ × ℚ :=
  if w > avail_width then (avail_width, h * (avail_width / w)) else (w, h)

/-- Cover-page section of the story built by generate (part 1 of the
story list), parameterised by the metadata and the fetch_logo result:
spacers, title, subtitle, the Submitted-by block, the logo image (or a
2.8 inch blank spacer when the fetch failed), and the institute
address lines. -/
def cover_story (m : ReportMetadata) (logo : Option Unit) : List Prim :=
  [Prim.spacer (0.5 * inch),
   Prim.para m.title "CoverTitle",
   Prim.para m.subtitle "CoverSubtitle",
   Prim.spacer (0.8 * inch),
   Prim.para "Submitted by" "SubmittedByLabel",
   Prim.para m.name "StudentInfo",
   Prim.para m.roll_number "StudentInfo",
   Prim.spacer (1.0 * inch)] ++
  (match logo with
   | some _ => [Prim.image (2.8 * inch) (2.8 * inch)]
   | none => [Prim.spacer (2.8 * inch)]) ++
  [Prim.spacer (1.8 * inch),
   Prim.para "IITM Online BS Degree Program," "InstituteInfo",
   Prim.para "Indian Institute of Technology, Madras, Chennai" "InstituteInfo",
   Prim.para "Tamil Nadu, India, 600036" "InstituteInfo"]

/-- Table-of-contents section of the story (part 2): the page title and
the TableOfContents placeholder. -/
def toc_story : List Prim :=
  [Prim.para "Table of Contents" "Title", Prim.tocPlaceholder]

/-- Body of the content loop in generate: a heading item appends one
CustomH1 paragraph; a text item appends one BodyText paragraph and a
0.1 inch spacer; an image item with a truthy file appends the fitted
image and a 0.2 inch spacer, and with a falsy file appends nothing. -/
def item_story : ContentItem → List Prim
  | ContentItem.heading t => [Prim.para t "CustomH1"]
  | ContentItem.text t => [Prim.para t "BodyText", Prim.spacer (0.1 * inch)]
  | ContentItem.image f =>
      match f with
      | some im =>
          [Prim.image (fit_image im.width im.height).1 (fit_image im.width im.height).2,
           Prim.spacer (0.2 * inch)]
      | none => []

/-- The full story list built by generate: cover section, PageBreak,
TOC section, PageBreak, then the translation of each content item in
input order. -/
def story (m : ReportMetadata) (r : HttpResult) (items : List ContentItem) : List Prim :=
  cover_story m (fetch_logo r) ++ [Prim.pageBreak] ++
  toc_story ++ [Prim.pageBreak] ++
  items.flatMap item_story

/-- Rendered height of a primitive.  Paragraph heights depend on text
wrapping inside the external engine and are an abstract parameter f
(from paragraph text and style name); likewise the height tocH of the
rendered TableOfContents placeholder.  Spacer and image heights are
explicit in the primitive; a page break occupies no height. -/
def primHeight (f : String → String → ℚ) (tocH : ℚ) : Prim → ℚ
  | Prim.para t s => f t s
  | Prim.spacer h => h
  | Prim.image _ h => h
  | Prim.tocPlaceholder => tocH
  | Prim.pageBreak => 0

/-- Vertical space available on one page: page height minus the 72pt
top and bottom margins of the SimpleDocTemplate. -/
def pageCapacity : ℚ := a4Height - 144

/-- Whether a primitive is the explicit PageBreak. -/
def is_page_break : Prim → Bool
  | Prim.pageBreak => true
  | _ => false

/-- Modelled from the spec: the placement loop of the pagination engine
(reportlab multiBuild, not part of this repository).  Walks the
primitive list with the current 1-based page number and the vertical
space already used; an explicit page break starts a new page, and any
other primitive is placed on the current page if its height fits in
the remaining space, else on a fresh page.  Returns the (primitive,
page number) assignment list. -/
def paginate_from (ht : Prim → ℚ) : List Prim → Nat → ℚ → List (Prim × Nat)
  | [], _, _ => []
  | Prim.pageBreak :: rest, page, _ =>
    paginate_from ht rest (page + 1) 0
  | p :: rest, page, used =>
    if used + ht p > pageCapacity then
      (p, page + 1) :: paginate_from ht rest (page + 1) (ht p)
    else
      (p, page) :: paginate_from ht rest page (used + ht p)

/-- Pagination of a whole story, starting on page 1 with nothing used. -/
def paginate (ht : Prim → ℚ) (s : List Prim) : List (Prim × Nat) :=
  paginate_from ht s 1 0

/-- Number of pages of a placed document: the largest page number that
actually received a primitive (a document has at least one page). -/
def page_count (pl : List (Prim × Nat)) : Nat :=
  (pl.map Prod.snd).foldl max 1

/-- Modelled from the spec: a placed CustomH1 paragraph is the
registration point of one table-of-contents entry carrying its text
(the notification hook lives in the external engine). -/
def extract_heading : Prim → Option String
  | Prim.para t s => if s = "CustomH1" then some t else none
  | _ => none

/-- Table-of-contents entries of a placed document: text and page
number of every placed CustomH1 paragraph, in placement order. -/
def toc_entries (pl : List (Prim × Nat)) : List (String × Nat) :=
  pl.filterMap (fun a => (extract_heading a.1).map (fun t => (t, a.2)))

/-- One centred footer drawing: x/y position, font size and the text,
as issued by canvas.drawCentredString. -/
structure FooterDraw where
  x : ℚ
  y : ℚ
  size : ℚ
  text : String
deriving DecidableEq

/-- PDFGenerator.draw_cover_footer: the literal text 0 at the bottom
centre (A4 width / 2, 0.75 inch up), font size 11. -/
def draw_cover_footer : FooterDraw :=
  ⟨a4Width / 2, 0.75 * inch, 11, "0"⟩

/-- PDFGenerator.draw_content_footer: the decimal page number from
canvas.getPageNumber() at the bottom centre (A4 width / 2, 0.5 inch
up), font size 10. -/
def draw_content_footer (n : Nat) : FooterDraw :=
  ⟨a4Width / 2, 0.5 * inch, 10, toString n⟩

/-- on_page_layout in generate: page 1 gets the cover footer, every
other page the standard content footer. -/
def on_page_layout (n : Nat) : FooterDraw :=
  if n = 1 then draw_cover_footer else draw_content_footer n

/-- Footer texts of pages 1..count, as drawn by on_page_layout. -/
def footers (count : Nat) : List String :=
  (List.range count).map (fun i => (on_page_layout (i + 1)).text)

/-- Errors of the language-neutral generation contract (section 6 of
the specification). -/
inductive GenError
  | layoutError
  | invalidDimensions
deriving DecidableEq

/-- Structural result of a generation run: the placement list, the
page count, the footer text of each page, and the table-of-contents
entries. -/
structure DocResult where
  placements : List (Prim × Nat)
  pages : Nat
  footerTexts : List String
  tocEntries : List (String × Nat)
deriving DecidableEq

/-- Modelled from the spec: a primitive that cannot be placed on any
page (taller than a full page) is a fatal layout error of the external
engine. -/
def layout_fails (ht : Prim → ℚ) (s : List Prim) : Bool :=
  s.any (fun p => !(is_page_break p) && decide (pageCapacity < ht p))

/-- PDFGenerator.generate: build the story from the metadata, the
fetch_logo outcome and the content items, then lay it out.  The
pagination and failure behaviour of doc.multiBuild is modelled from
the spec (sections 4.5 and 4.6); the source performs no dimension
validation of image items, so no InvalidDimensions path exists. -/
def generate (m : ReportMetadata) (r : HttpResult) (f : String → String → ℚ)
    (tocH : ℚ) (items : List ContentItem) : Except GenError DocResult :=
  let s := story m r items
  let ht := primHeight f tocH
  if layout_fails ht s then Except.error GenError.layoutError
  else
    let pl := paginate ht s
    Except.ok ⟨pl, page_count pl, footers (page_count pl), toc_entries pl⟩

/-- Texts of the heading items of a content list, in order. -/
def heading_texts (items : List ContentItem) : List String :=
  items.filterMap (fun i =>
    match i with
    | ContentItem.heading t => some t
    | _ => none)

/-- The structural view of a generation result that idempotence is
stated about: page count, footer texts, table-of-contents entries. -/
def doc_shape (d : DocResult) : Nat × List String × List (String × Nat) :=
  (d.pages, d.footerTexts, d.tocEntries)

/-- Whether a generation result is a success. -/
def except_ok : Except GenError DocResult → Bool
  | Except.ok _ => true
  | Except.error _ => false

/-- Whether a generation result is the InvalidDimensions failure. -/
def is_invalid_dim : Except GenError DocResult → Bool
  | Except.error GenError.invalidDimensions => true
  | _ => false

/-- A concrete metadata record used for witnesses. -/
def sampleMeta : ReportMetadata :=
  ⟨"T", "S", "A", "R"⟩

/-- A concrete paragraph-height assignment used for witnesses: every
paragraph is 20pt tall. -/
def flatHeight : String → String → ℚ := fun _ _ => 20

/-- TOC-placeholder placements of a generation result: the page numbers
on which the TableOfContents primitive was placed. -/
def toc_pages (d : DocResult) : List Nat :=
  d.placements.filterMap (fun a =>
    match a.1 with
    | Prim.tocPlaceholder => some a.2
    | _ => none)

/-- The pagination-relevant skeleton of a primitive: whether it is a
page break, its rendered height, and its table-of-contents text. -/
def skel (ht : Prim → ℚ) (p : Prim) : Bool × ℚ × Option String :=
  (is_page_break p, ht p, extract_heading p)

/-- The entry-relevant view of one placement: the heading text (if the
primitive registers one) and the page number. -/
def entry_view (a : Prim × Nat) : Option String × Nat :=
  (extract_heading a.1, a.2)

lemma is_page_break_eq_true {p : Prim} : is_page_break p = true ↔ p = Prim.pageBreak := by
  cases p <;> simp [is_page_break]

lemma paginate_from_cons_break (ht : Prim → ℚ) (rest : List Prim) (page : Nat) (used : ℚ) :
    paginate_from ht (Prim.pageBreak :: rest) page used = paginate_from ht rest (page + 1) 0 := by
  simp [paginate_from]

lemma paginate_from_cons_ne (ht : Prim → ℚ) (p : Prim) (rest : List Prim) (page : Nat)
    (used : ℚ) (hp : p ≠ Prim.pageBreak) :
    paginate_from ht (p :: rest) page used =
      if used + ht p > pageCapacity then
        (p, page + 1) :: paginate_from ht rest (page + 1) (ht p)
      else
        (p, page) :: paginate_from ht rest page (used + ht p) := by
  cases p <;> first
    | exact absurd rfl hp
    | simp [paginate_from]

lemma toc_entries_paginate (ht : Prim → ℚ) :
    ∀ (l : List Prim) (page : Nat) (used : ℚ),
      (toc_entries (paginate_from ht l page used)).map Prod.fst = l.filterMap extract_heading := by
  intro l
  induction l with
  | nil => intro page used; simp [paginate_from, toc_entries]
  | cons p rest ih =>
    intro page used
    simp only [toc_entries] at ih ⊢
    by_cases hp : p = Prim.pageBreak
    · subst hp
      rw [paginate_from_cons_break, List.filterMap_cons]
      simp only [show extract_heading Prim.pageBreak = none from rfl]
      exact ih _ _
    · rw [paginate_from_cons_ne ht p rest page used hp]
      by_cases hc : used + ht p > pageCapacity
      · rw [if_pos hc]
        cases he : extract_heading p <;> simp [List.filterMap_cons, he, ih]
      · rw [if_neg hc]
        cases he : extract_heading p <;> simp [List.filterMap_cons, he, ih]

lemma cover_story_filterMap (m : ReportMetadata) (o : Option Unit) :
    (cover_story m o).filterMap extract_heading = [] := by
  cases o <;> simp [cover_story, extract_heading]

lemma flat_filterMap_heading (items : List ContentItem) :
    (items.flatMap item_story).filterMap extract_heading = heading_texts items := by
  induction items with
  | nil => simp [heading_texts]
  | cons i rest ih =>
    rw [List.flatMap_cons, List.filterMap_append, ih]
    cases i with
    | heading t =>
      simp [item_story, heading_texts, List.filterMap_cons, extract_heading]
    | text t =>
      simp [item_story, heading_texts, List.filterMap_cons, extract_heading]
    | image f =>
      cases f <;> simp [item_story, heading_texts, List.filterMap_cons, extract_heading]

lemma story_filterMap_heading (m : ReportMetadata) (r : HttpResult) (items : List ContentItem) :
    (story m r items).filterMap extract_heading = heading_texts items := by
  simp [story, List.filterMap_append, cover_story_filterMap, flat_filterMap_heading,
    toc_story, extract_heading, List.filterMap_cons]

/-- C1: every Heading block yields exactly one table-of-contents entry,
the entries carry the heading texts in the same relative order as the
Heading blocks appear in the input list, and hence the number of TOC
entries equals the number of Heading blocks. -/
theorem toc_one_entry_per_heading (m : ReportMetadata) (r : HttpResult)
    (f : String → String → ℚ) (tocH : ℚ) (items : List ContentItem) :
    (toc_entries (paginate (primHeight f tocH) (story m r items))).map Prod.fst =
        heading_texts items ∧
      (toc_entries (paginate (primHeight f tocH) (story m r items))).length =
        (heading_texts items).length := by
  have h : (toc_entries (paginate (primHeight f tocH) (story m r items))).map Prod.fst =
      heading_texts items := by
    rw [paginate, toc_entries_paginate, story_filterMap_heading]
  refine ⟨h, ?_⟩
  calc (toc_entries (paginate (primHeight f tocH) (story m r items))).length
      = ((toc_entries (paginate (primHeight f tocH) (story m r items))).map Prod.fst).length :=
        (List.length_map _ _).symm
    _ = (heading_texts items).length := by rw [h]

/-- C2 (amended): if the native width is at most the available column
width (A4 width minus 144pt, i.e. 57312/127 which is about 451.28pt,
not exactly 451pt), the native dimensions are kept unchanged;
otherwise the rendered width equals the available width and the
height is scaled by the same factor, preserving the aspect ratio
exactly; in particular a 4000 by 2000 image renders at 57312/127 by
28656/127 points (about 451.28 by 225.64). -/
theorem image_fitter_rule (w h : ℚ) :
    (w ≤ avail_width → fit_image w h = (w, h)) ∧
      (avail_width < w →
        (fit_image w h).1 = avail_width ∧ (fit_image w h).2 * w = h * avail_width) ∧
      fit_image 4000 2000 = (57312 / 127, 28656 / 127) ∧
      avail_width = 57312 / 127 := by
  refine ⟨?_, ?_, ?_, ?_⟩
  · intro hle
    rw [fit_image, if_neg (not_lt.mpr hle)]
  · intro hlt
    rw [fit_image, if_pos hlt]
    refine ⟨rfl, ?_⟩
    have h0 : (0 : ℚ) < avail_width := by norm_num [avail_width, a4Width]
    have hw : w ≠ 0 := ne_of_gt (lt_trans h0 hlt)
    field_simp
  · norm_num [fit_image, avail_width, a4Width]
  · norm_num [avail_width, a4Width]

/-- C2 counterexample: the available width is 57312/127, not 451, and
the 4000 by 2000 scenario does not render at (451, 225.5). -/
theorem image_fit_scenario_cex :
    fit_image 4000 2000 = (57312 / 127, 28656 / 127) ∧
      decide (avail_width = 451) = false ∧
      decide (fit_image 4000 2000 = ((451 : ℚ), (225.5 : ℚ))) = false := by
  refine ⟨by norm_num [fit_image, avail_width, a4Width], ?_, ?_⟩
  · exact decide_eq_false (by norm_num [avail_width, a4Width])
  · exact decide_eq_false (by norm_num [fit_image, avail_width, a4Width])

/-- C2 witness: a 100 by 50 image fits unchanged, and the 4000 by 2000
image is scaled to the available width with its aspect ratio intact. -/
theorem image_fitter_rule_witness :
    fit_image 100 50 = (100, 50) ∧
      (fit_image 4000 2000).1 = avail_width ∧
      (fit_image 4000 2000).2 * 4000 = 2000 * avail_width := by
  refine ⟨(image_fitter_rule 100 50).1 (by norm_num [avail_width, a4Width]), ?_, ?_⟩
  · exact ((image_fitter_rule 4000 2000).2.1 (by norm_num [avail_width, a4Width])).1
  · exact ((image_fitter_rule 4000 2000).2.1 (by norm_num [avail_width, a4Width])).2

/-- C3: the page decoration callback draws the centred text 0 when
invoked with ordinal 1, and the decimal representation of the ordinal,
unmodified, when invoked with any larger ordinal, regardless of the
document content. -/
theorem footer_decorator_contract :
    (on_page_layout 1).text = "0" ∧ (on_page_layout 1).x = a4Width / 2 ∧
      ∀ n : Nat, 1 < n →
        (on_page_layout n).text = toString n ∧ (on_page_layout n).x = a4Width / 2 := by
  refine ⟨by simp [on_page_layout, draw_cover_footer], by simp [on_page_layout, draw_cover_footer], ?_⟩
  intro n hn
  have hne : n ≠ 1 := by omega
  simp [on_page_layout, hne, draw_content_footer]

/-- C3 witness: ordinal 2 draws the centred text 2. -/
theorem footer_decorator_contract_witness :
    (on_page_layout 2).text = toString 2 ∧ (on_page_layout 2).x = a4Width / 2 :=
  footer_decorator_contract.2.2 2 (by norm_num)

lemma paginate_from_congr (ht1 ht2 : Prim → ℚ) :
    ∀ (l1 l2 : List Prim) (page : Nat) (used : ℚ),
      l1.map (skel ht1) = l2.map (skel ht2) →
      (paginate_from ht1 l1 page used).map entry_view =
        (paginate_from ht2 l2 page used).map entry_view := by
  intro l1
  induction l1 with
  | nil =>
    intro l2 page used h
    have h2 : l2 = [] := List.map_eq_nil_iff.mp h.symm
    subst h2
    simp [paginate_from]
  | cons p t1 ih =>
    intro l2 page used h
    cases l2 with
    | nil => simp at h
    | cons q t2 =>
      simp only [List.map_cons, List.cons.injEq] at h
      obtain ⟨hhead, htail⟩ := h
      have hb : is_page_break p = is_page_break q := congrArg Prod.fst hhead
      have hh : ht1 p = ht2 q := congrArg (fun x => x.2.1) hhead
      have he : extract_heading p = extract_heading q := congrArg (fun x => x.2.2) hhead
      by_cases hp : p = Prim.pageBreak
      · subst hp
        have hq : q = Prim.pageBreak := by
          rw [← is_page_break_eq_true, ← hb]
          rfl
        subst hq
        rw [paginate_from_cons_break, paginate_from_cons_break]
        exact ih t2 (page + 1) 0 htail
      · have hq : q ≠ Prim.pageBreak := by
          intro hq
          apply hp
          rw [← is_page_break_eq_true, hb, is_page_break_eq_true]
          exact hq
        rw [paginate_from_cons_ne ht1 p t1 page used hp,
          paginate_from_cons_ne ht2 q t2 page used hq, hh]
        by_cases hc : used + ht2 q > pageCapacity
        · rw [if_pos hc, if_pos hc]
          simp only [List.map_cons, entry_view, he]
          rw [ih t2 (page + 1) (ht2 q) htail]
        · rw [if_neg hc, if_neg hc]
          simp only [List.map_cons, entry_view, he]
          rw [ih t2 page (used + ht2 q) htail]

lemma placements_map_snd_of_view {pl1 pl2 : List (Prim × Nat)}
    (h : pl1.map entry_view = pl2.map entry_view) :
    pl1.map Prod.snd = pl2.map Prod.snd := by
  have h2 := congrArg (List.map Prod.snd) h
  simpa [List.map_map, Function.comp, entry_view] using h2

lemma toc_entries_eq_view (pl : List (Prim × Nat)) :
    toc_entries pl = (pl.map entry_view).filterMap (fun x => x.1.map (fun t => (t, x.2))) := by
  rw [List.filterMap_map]
  rfl

lemma layout_fails_eq_skel (ht : Prim → ℚ) (l : List Prim) :
    layout_fails ht l =
      (l.map (skel ht)).any (fun x => !x.1 && decide (pageCapacity < x.2.1)) := by
  induction l with
  | nil => rfl
  | cons p t ih =>
    simp only [layout_fails, List.any_cons, List.map_cons] at ih ⊢
    rw [ih]
    rfl

lemma cover_story_skel (m : ReportMetadata) (f : String → String → ℚ) (tocH : ℚ)
    (o1 o2 : Option Unit) :
    (cover_story m o1).map (skel (primHeight f tocH)) =
      (cover_story m o2).map (skel (primHeight f tocH)) := by
  cases o1 <;> cases o2 <;>
    simp [cover_story, skel, primHeight, is_page_break, extract_heading]

lemma story_skel (m : ReportMetadata) (items : List ContentItem)
    (f : String → String → ℚ) (tocH : ℚ) (r1 r2 : HttpResult) :
    (story m r1 items).map (skel (primHeight f tocH)) =
      (story m r2 items).map (skel (primHeight f tocH)) := by
  simp only [story, List.map_append]
  rw [cover_story_skel m f tocH (fetch_logo r1) (fetch_logo r2)]

lemma generate_shape_congr (m : ReportMetadata) (f : String → String → ℚ) (tocH : ℚ)
    (items : List ContentItem) (r1 r2 : HttpResult) :
    (generate m r1 f tocH items).map doc_shape = (generate m r2 f tocH items).map doc_shape := by
  have hskel := story_skel m items f tocH r1 r2
  have hfail : layout_fails (primHeight f tocH) (story m r1 items) =
      layout_fails (primHeight f tocH) (story m r2 items) := by
    rw [layout_fails_eq_skel, layout_fails_eq_skel, hskel]
  have hview := paginate_from_congr (primHeight f tocH) (primHeight f tocH)
    (story m r1 items) (story m r2 items) 1 0 hskel
  have hsnd := placements_map_snd_of_view hview
  have hpc : page_count (paginate (primHeight f tocH) (story m r1 items)) =
      page_count (paginate (primHeight f tocH) (story m r2 items)) := by
    unfold page_count paginate
    rw [hsnd]
  have htoc : toc_entries (paginate (primHeight f tocH) (story m r1 items)) =
      toc_entries (paginate (primHeight f tocH) (story m r2 items)) := by
    unfold paginate
    rw [toc_entries_eq_view, toc_entries_eq_view, hview]
  by_cases hf : layout_fails (primHeight f tocH) (story m r1 items) = true
  · have hf2 : layout_fails (primHeight f tocH) (story m r2 items) = true := by
      rw [← hfail]; exact hf
    simp [generate, hf, hf2]
  · have hf2 : ¬ layout_fails (primHeight f tocH) (story m r2 items) = true := by
      rw [← hfail]; exact hf
    simp [generate, hf, hf2, doc_shape, hpc, htoc, Except.map]

/-- C6: generation is structurally deterministic: whatever the outcome
of the environment-dependent logo fetch in each run, two runs of
generate on identical metadata and identical content lists yield the
same page count, the same footer text on each page, and the same
table-of-contents entries. -/
theorem generate_structurally_deterministic (m : ReportMetadata)
    (f : String → String → ℚ) (tocH : ℚ) (items : List ContentItem) (r1 r2 : HttpResult) :
    (generate m r1 f tocH items).map doc_shape = (generate m r2 f tocH items).map doc_shape :=
  generate_shape_congr m f tocH items r1 r2

lemma except_ok_of_shape {e1 e2 : Except GenError DocResult}
    (h : e1.map doc_shape = e2.map doc_shape) : except_ok e1 = except_ok e2 := by
  cases e1 <;> cases e2 <;> simp_all [except_ok, Except.map]

/-- C7: when the logo fetch fails (a network error or any non-200
response), fetch_logo yields none, the cover keeps a blank 2.8 inch
spacer exactly where the successful run puts the 2.8 inch logo image,
and the failure never changes whether generation as a whole succeeds. -/
theorem logo_failure_fallback (m : ReportMetadata) (items : List ContentItem)
    (f : String → String → ℚ) (tocH : ℚ) (r : HttpResult) (hr : fetch_logo r = none) :
    (∀ s : Nat, s ≠ 200 → fetch_logo (HttpResult.response s) = none) ∧
      fetch_logo HttpResult.netError = none ∧
      (∃ pre post : List Prim,
        cover_story m (fetch_logo r) = pre ++ [Prim.spacer (2.8 * inch)] ++ post ∧
        cover_story m (some ()) = pre ++ [Prim.image (2.8 * inch) (2.8 * inch)] ++ post) ∧
      except_ok (generate m r f tocH items) =
        except_ok (generate m (HttpResult.response 200) f tocH items) := by
  refine ⟨?_, rfl, ?_, ?_⟩
  · intro s hs
    simp [fetch_logo, hs]
  · refine ⟨[Prim.spacer (0.5 * inch),
      Prim.para m.title "CoverTitle",
      Prim.para m.subtitle "CoverSubtitle",
      Prim.spacer (0.8 * inch),
      Prim.para "Submitted by" "SubmittedByLabel",
      Prim.para m.name "StudentInfo",
      Prim.para m.roll_number "StudentInfo",
      Prim.spacer (1.0 * inch)],
      [Prim.spacer (1.8 * inch),
      Prim.para "IITM Online BS Degree Program," "InstituteInfo",
      Prim.para "Indian Institute of Technology, Madras, Chennai" "InstituteInfo",
      Prim.para "Tamil Nadu, India, 600036" "InstituteInfo"], ?_, ?_⟩
    · rw [hr]
      simp [cover_story]
    · simp [cover_story]
  · exact except_ok_of_shape (generate_shape_congr m f tocH items r (HttpResult.response 200))

/-- C7 witness: a network error leaves fetch_logo without a logo and
generation success is unchanged against a successful fetch. -/
theorem logo_failure_fallback_witness :
    fetch_logo HttpResult.netError = none ∧
      except_ok (generate sampleMeta HttpResult.netError flatHeight 10 []) =
        except_ok (generate sampleMeta (HttpResult.response 200) flatHeight 10 []) :=
  ⟨rfl, (logo_failure_fallback sampleMeta [] flatHeight 10 HttpResult.netError rfl).2.2.2⟩

/-- C5: the flow builder emits, in order: the cover-page primitives, an
explicit page break, the table-of-contents block (title paragraph and
TOC placeholder), an explicit page break, then for each content item in
input order its primitives — one CustomH1 paragraph per heading, one
BodyText paragraph plus a 0.1 inch spacer per text item, one fitted
image plus a 0.2 inch spacer per image item — with no page break inside
the content translation and no trailing page break after the last
block. -/
theorem flow_builder_order (m : ReportMetadata) (r : HttpResult) (items : List ContentItem) :
    story m r items =
        cover_story m (fetch_logo r) ++ [Prim.pageBreak] ++ toc_story ++ [Prim.pageBreak] ++
          items.flatMap item_story ∧
      toc_story = [Prim.para "Table of Contents" "Title", Prim.tocPlaceholder] ∧
      (∀ t : String, item_story (ContentItem.heading t) = [Prim.para t "CustomH1"]) ∧
      (∀ t : String, item_story (ContentItem.text t) =
        [Prim.para t "BodyText", Prim.spacer (0.1 * inch)]) ∧
      (∀ im : ImageFile, item_story (ContentItem.image (some im)) =
        [Prim.image (fit_image im.width im.height).1 (fit_image im.width im.height).2,
         Prim.spacer (0.2 * inch)]) ∧
      (∀ p ∈ items.flatMap item_story, is_page_break p = false) ∧
      (items.flatMap item_story ≠ [] →
        (story m r items).getLast? = (items.flatMap item_story).getLast?) := by
  refine ⟨rfl, rfl, fun t => rfl, fun t => rfl, fun im => rfl, ?_, ?_⟩
  · intro p hp
    rw [List.mem_flatMap] at hp
    obtain ⟨i, _, hpi⟩ := hp
    cases i with
    | heading t =>
      simp only [item_story, List.mem_singleton] at hpi
      subst hpi; rfl
    | text t =>
      simp only [item_story, List.mem_cons, List.mem_singleton, List.not_mem_nil,
        or_false] at hpi
      rcases hpi with rfl | rfl <;> rfl
    | image f =>
      cases f with
      | none => simp [item_story] at hpi
      | some im =>
        simp only [item_story, List.mem_cons, List.mem_singleton, List.not_mem_nil,
          or_false] at hpi
        rcases hpi with rfl | rfl <;> rfl
  · intro hne
    exact List.getLast?_append_of_ne_nil _ hne

/-- C5 witness: for one heading item the content translation is one
CustomH1 paragraph, carries no page break, and ends the story. -/
theorem flow_builder_order_witness :
    ([ContentItem.heading "Intro"].flatMap item_story = [Prim.para "Intro" "CustomH1"]) ∧
      is_page_break (Prim.para "Intro" "CustomH1") = false ∧
      (story sampleMeta HttpResult.netError [ContentItem.heading "Intro"]).getLast? =
        ([ContentItem.heading "Intro"].flatMap item_story).getLast? := by
  refine ⟨by simp [item_story], ?_, ?_⟩
  · exact (flow_builder_order sampleMeta HttpResult.netError [ContentItem.heading "Intro"]).2.2.2.2.2.1
      (Prim.para "Intro" "CustomH1") (by simp [item_story])
  · exact (flow_builder_order sampleMeta HttpResult.netError [ContentItem.heading "Intro"]).2.2.2.2.2.2
      (by simp [item_story])

/-- C8 (amended): generate performs no dimension validation at all: no
input ever produces the InvalidDimensions failure; an image with
non-positive native width falls into the no-resize branch (its width
does not exceed the available width) and is passed through with its
native dimensions. -/
theorem no_invalid_dimensions (m : ReportMetadata) (r : HttpResult)
    (f : String → String → ℚ) (tocH : ℚ) (items : List ContentItem) :
    is_invalid_dim (generate m r f tocH items) = false ∧ fit_image 0 0 = (0, 0) := by
  constructor
  · simp only [generate]
    split <;> rfl
  · norm_num [fit_image, avail_width, a4Width]

/-- C8 counterexample: generation with a 0 by 0 image item succeeds and
does not fail with InvalidDimensions, contradicting the claim that such
input is rejected before layout. -/
theorem invalid_dims_not_rejected_cex :
    except_ok (generate sampleMeta HttpResult.netError flatHeight 10
        [ContentItem.image (some ⟨0, 0⟩)]) = true ∧
      is_invalid_dim (generate sampleMeta HttpResult.netError flatHeight 10
        [ContentItem.image (some ⟨0, 0⟩)]) = false ∧
      fit_image 0 0 = (0, 0) := by
  refine ⟨?_, ?_, by norm_num [fit_image, avail_width, a4Width]⟩
  · norm_num [except_ok, generate, story, cover_story, toc_story, item_story, fetch_logo,
      layout_fails, primHeight, pageCapacity, a4Height, avail_width, a4Width,
      is_page_break, fit_image, sampleMeta, flatHeight, inch]
  · norm_num [is_invalid_dim, generate, story, cover_story, toc_story, item_story, fetch_logo,
      layout_fails, primHeight, pageCapacity, a4Height, avail_width, a4Width,
      is_page_break, fit_image, sampleMeta, flatHeight, inch]

/-- C10: an image item whose file is falsy contributes no primitive at
all — no image, no spacer, no error — and the generated document equals
the one generated from the list with that item removed, all other items
rendered normally. -/
theorem falsy_image_dropped (m : ReportMetadata) (r : HttpResult)
    (f : String → String → ℚ) (tocH : ℚ) (pre post : List ContentItem) :
    item_story (ContentItem.image none) = [] ∧
      generate m r f tocH (pre ++ [ContentItem.image none] ++ post) =
        generate m r f tocH (pre ++ post) := by
  refine ⟨rfl, ?_⟩
  have hstory : story m r (pre ++ [ContentItem.image none] ++ post) =
      story m r (pre ++ post) := by
    simp [story, List.flatMap_append, item_story]
  simp only [generate, hstory]

/-- C4 counterexample: for metadata T/S/A/R, a single heading item,
uniform 20pt paragraph heights and a 10pt TOC placeholder, the TOC
placeholder lands on internal page 2 and the document has footers
0, 2, 3 — the page immediately after the table-of-contents page is
internal page 3 and carries footer 3, not 1. -/
theorem first_content_page_footer_cex :
    (generate sampleMeta (HttpResult.response 200) flatHeight 10
          [ContentItem.heading "Intro"]).toOption.map
        (fun d => (d.pages, d.footerTexts, d.tocEntries, toc_pages d)) =
      some (3, ["0", "2", "3"], [("Intro", 3)], [2]) ∧
      decide (("3" : String) = "1") = false := by
  constructor
  · norm_num [generate, story, cover_story, toc_story, item_story, fetch_logo, layout_fails,
      paginate, paginate_from, primHeight, pageCapacity, a4Height, avail_width, a4Width,
      page_count, footers, toc_entries, extract_heading, is_page_break, toc_pages,
      on_page_layout, draw_cover_footer, draw_content_footer, sampleMeta, flatHeight, inch,
      List.range_succ, List.filterMap_cons]
    decide
  · decide

/-- C4 (amended): the cover page (internal page 1) is decorated with
the literal footer 0, and every later page is decorated with its
internal page number in decimal — the decorator special-cases page 1
only and performs no renumbering, so the first content page (internal
page 3, right after the table-of-contents page) carries footer 3. -/
theorem footer_uses_internal_numbers :
    (on_page_layout 1).text = "0" ∧
      (∀ n : Nat, 1 < n → (on_page_layout n).text = toString n) ∧
      (generate sampleMeta (HttpResult.response 200) flatHeight 10
            [ContentItem.heading "Intro"]).toOption.map
          (fun d => (d.footerTexts, toc_pages d)) = some (["0", "2", "3"], [2]) := by
  refine ⟨by simp [on_page_layout, draw_cover_footer], ?_, ?_⟩
  · intro n hn
    have hne : n ≠ 1 := by omega
    simp [on_page_layout, hne, draw_content_footer]
  · norm_num [generate, story, cover_story, toc_story, item_story, fetch_logo, layout_fails,
      paginate, paginate_from, primHeight, pageCapacity, a4Height, avail_width, a4Width,
      page_count, footers, toc_entries, extract_heading, is_page_break, toc_pages,
      on_page_layout, draw_cover_footer, draw_content_footer, sampleMeta, flatHeight, inch,
      List.range_succ, List.filterMap_cons]
    decide

/-- C4 witness: ordinal 3 — the first content page of the scenario — is
decorated with the text 3. -/
theorem footer_uses_internal_numbers_witness :
    (on_page_layout 3).text = toString 3 :=
  footer_uses_internal_numbers.2.1 3 (by norm_num)

lemma paginate_from_fits (ht : Prim → ℚ) :
    ∀ (l1 rest : List Prim) (page : Nat) (used : ℚ),
      (∀ p ∈ l1, p ≠ Prim.pageBreak) → (∀ p ∈ l1, 0 ≤ ht p) → 0 ≤ used →
      used + (l1.map ht).sum ≤ pageCapacity →
      paginate_from ht (l1 ++ rest) page used =
        l1.map (fun p => (p, page)) ++ paginate_from ht rest page (used + (l1.map ht).sum) := by
  intro l1
  induction l1 with
  | nil =>
    intro rest page used _ _ _ _
    simp
  | cons p t ih =>
    intro rest page used hnb hnn hu hsum
    have hp : p ≠ Prim.pageBreak := hnb p (List.mem_cons_self p t)
    have hnnp : 0 ≤ ht p := hnn p (List.mem_cons_self p t)
    have hnnt : ∀ q ∈ t, 0 ≤ ht q := fun q hq => hnn q (List.mem_cons_of_mem p hq)
    have hsumt : 0 ≤ (t.map ht).sum := by
      apply List.sum_nonneg
      intro x hx
      rw [List.mem_map] at hx
      obtain ⟨q, hq, rfl⟩ := hx
      exact hnnt q hq
    have hsum' : used + (ht p + (t.map ht).sum) ≤ pageCapacity := by
      simpa [List.map_cons, List.sum_cons] using hsum
    have hcond : ¬ used + ht p > pageCapacity := by
      push_neg
      linarith
    rw [List.cons_append, paginate_from_cons_ne ht p (t ++ rest) page used hp, if_neg hcond]
    rw [ih rest page (used + ht p) (fun q hq => hnb q (List.mem_cons_of_mem p hq)) hnnt
      (by linarith) (by linarith)]
    simp only [List.map_cons, List.sum_cons, List.cons_append, add_assoc]

lemma cover_story_no_break (m : ReportMetadata) (o : Option Unit) :
    ∀ p ∈ cover_story m o, p ≠ Prim.pageBreak := by
  intro p hp
  cases o <;> simp [cover_story] at hp <;>
    rcases hp with rfl | rfl | rfl | rfl | rfl | rfl | rfl | rfl | rfl | rfl | rfl | rfl | rfl <;>
      simp

lemma toc_story_no_break : ∀ p ∈ toc_story, p ≠ Prim.pageBreak := by
  intro p hp
  simp only [toc_story, List.mem_cons, List.not_mem_nil, or_false] at hp
  rcases hp with rfl | rfl <;> simp

lemma cover_story_heights_nonneg (m : ReportMetadata) (o : Option Unit)
    (f : String → String → ℚ) (tocH : ℚ) (hf : ∀ t s, 0 ≤ f t s) :
    ∀ p ∈ cover_story m o, 0 ≤ primHeight f tocH p := by
  intro p hp
  cases o <;> simp [cover_story] at hp <;>
    rcases hp with rfl | rfl | rfl | rfl | rfl | rfl | rfl | rfl | rfl | rfl | rfl | rfl | rfl <;>
      simp only [primHeight] <;>
      first
        | exact hf _ _
        | norm_num [inch]

lemma toc_story_heights_nonneg (f : String → String → ℚ) (tocH : ℚ)
    (hf : ∀ t s, 0 ≤ f t s) (htoc : 0 ≤ tocH) :
    ∀ p ∈ toc_story, 0 ≤ primHeight f tocH p := by
  intro p hp
  simp only [toc_story, List.mem_cons, List.not_mem_nil, or_false] at hp
  rcases hp with rfl | rfl <;> simp only [primHeight]
  · exact hf _ _
  · exact htoc

/-- C9: with an empty block list — provided the fixed cover content and
the table-of-contents block each fit on one page, which is the
assumption the source layout makes — generation succeeds, the document
has exactly two pages (cover and table-of-contents), the table of
contents is empty, and no LayoutError is raised. -/
theorem empty_block_list_two_pages (m : ReportMetadata) (r : HttpResult)
    (f : String → String → ℚ) (tocH : ℚ)
    (hf : ∀ t s : String, 0 ≤ f t s) (htoc : 0 ≤ tocH)
    (hcov : ((cover_story m (fetch_logo r)).map (primHeight f tocH)).sum ≤ pageCapacity)
    (htsum : (toc_story.map (primHeight f tocH)).sum ≤ pageCapacity) :
    ∃ d : DocResult, generate m r f tocH [] = Except.ok d ∧
      d.pages = 2 ∧ d.tocEntries = [] ∧ d.footerTexts = ["0", "2"] := by
  have hts : story m r [] =
      cover_story m (fetch_logo r) ++ (Prim.pageBreak :: (toc_story ++ [Prim.pageBreak])) := by
    simp [story]
  have hpag : paginate (primHeight f tocH) (story m r []) =
      (cover_story m (fetch_logo r)).map (fun p => (p, 1)) ++
        toc_story.map (fun p => (p, 2)) := by
    rw [paginate, hts]
    rw [paginate_from_fits (primHeight f tocH) (cover_story m (fetch_logo r)) _ 1 0
      (cover_story_no_break m _) (cover_story_heights_nonneg m _ f tocH hf) le_rfl
      (by simpa using hcov)]
    rw [paginate_from_cons_break]
    rw [paginate_from_fits (primHeight f tocH) toc_story [Prim.pageBreak] 2 0
      toc_story_no_break (toc_story_heights_nonneg f tocH hf htoc) le_rfl
      (by simpa using htsum)]
    rw [paginate_from_cons_break]
    simp [paginate_from]
  have hfail : layout_fails (primHeight f tocH) (story m r []) = false := by
    rw [hts]
    simp only [layout_fails]
    rw [List.any_eq_false]
    intro p hp
    simp only [List.mem_append, List.mem_cons, List.not_mem_nil, or_false] at hp
    have hcovnn : ∀ x ∈ (cover_story m (fetch_logo r)).map (primHeight f tocH), 0 ≤ x := by
      intro x hx
      rw [List.mem_map] at hx
      obtain ⟨q, hq, rfl⟩ := hx
      exact cover_story_heights_nonneg m _ f tocH hf q hq
    have htocnn : ∀ x ∈ toc_story.map (primHeight f tocH), 0 ≤ x := by
      intro x hx
      rw [List.mem_map] at hx
      obtain ⟨q, hq, rfl⟩ := hx
      exact toc_story_heights_nonneg f tocH hf htoc q hq
    rcases hp with hc | rfl | htc | rfl
    · have h1 : primHeight f tocH p ≤ pageCapacity :=
        le_trans (List.single_le_sum hcovnn _ (List.mem_map_of_mem _ hc)) hcov
      have h2 : ¬ pageCapacity < primHeight f tocH p := not_lt.mpr h1
      simp [h2]
    · simp [is_page_break]
    · have h1 : primHeight f tocH p ≤ pageCapacity :=
        le_trans (List.single_le_sum htocnn _ (List.mem_map_of_mem _ htc)) htsum
      have h2 : ¬ pageCapacity < primHeight f tocH p := not_lt.mpr h1
      simp [h2]
    · simp [is_page_break]
  have hpc : page_count (paginate (primHeight f tocH) (story m r [])) = 2 := by
    rw [hpag]
    cases fetch_logo r <;>
      all_goals
        simp [page_count, cover_story, toc_story, Function.comp]
        try decide
  have htocE : toc_entries (paginate (primHeight f tocH) (story m r [])) = [] := by
    rw [hpag]
    cases fetch_logo r <;>
      all_goals
        simp [toc_entries, cover_story, toc_story, extract_heading, List.filterMap_cons,
          List.filterMap_append]
  have hfoot : footers 2 = ["0", "2"] := by
    simp [footers, List.range_succ, on_page_layout, draw_cover_footer, draw_content_footer]
    try decide
  have hgen : generate m r f tocH [] = Except.ok
      ⟨paginate (primHeight f tocH) (story m r []),
        page_count (paginate (primHeight f tocH) (story m r [])),
        footers (page_count (paginate (primHeight f tocH) (story m r []))),
        toc_entries (paginate (primHeight f tocH) (story m r []))⟩ := by
    simp [generate, hfail]
  refine ⟨_, hgen, ?_, ?_, ?_⟩
  · exact hpc
  · exact htocE
  · rw [hpc, hfoot]

/-- C9 witness: for the sample metadata, a failed logo fetch, 20pt
paragraphs and a 10pt TOC placeholder, the empty block list yields a
successful two-page document with an empty table of contents. -/
theorem empty_block_list_two_pages_witness :
    ∃ d : DocResult, generate sampleMeta HttpResult.netError flatHeight 10 [] = Except.ok d ∧
      d.pages = 2 ∧ d.tocEntries = [] ∧ d.footerTexts = ["0", "2"] := by
  apply empty_block_list_two_pages
  · intro t s
    norm_num [flatHeight]
  · norm_num
  · norm_num [cover_story, fetch_logo, primHeight, flatHeight, inch, pageCapacity, a4Height]
  · norm_num [toc_story, primHeight, flatHeight, pageCapacity, a4Height]
